import Mathlib

/-!
Shallow embedding of the core of `prometheus_exporter` (labels, metrics,
label filtering, the text exposition format, and the caching exporter) and
proofs about it.

Python values relevant to label validation are modelled by `PyVal`
(strings and integers are enough to express the isinstance checks), Python
exceptions by `PyError`, dictionaries by insertion-ordered association
lists, numeric metric values by `Int`, and wall-clock time by an explicit
`Int` parameter (`time()` in the source).
-/

/-- Python values, as far as label validation needs them: label keys and
values are checked with `isinstance(..., str)`, so one non-string shape
(`int`) is enough to express every branch of the checks. -/
inductive PyVal where
  | str (s : String)
  | int (n : Int)
deriving DecidableEq

/-- Python exceptions raised by the embedded code. -/
inductive PyError where
  | typeError (msg : String)
  | valueError (msg : String)
  | attributeError (msg : String)
deriving DecidableEq

/-- `Labels` is a `dict` subclass: an insertion-ordered mapping from
string keys to string values. -/
abbrev Labels := List (String × String)

/-- The class attribute `Labels.global_labels`: a dict mapping a label key
to the list of every value ever stored under it. -/
abbrev GlobalLabels := List (String × List String)

/-- Dict lookup `l.get(k)`: the value stored under `k`, if any. -/
def Labels.getVal (l : Labels) (k : String) : Option String :=
  match l with
  | [] => none
  | (k', v) :: rest => if k' = k then some v else Labels.getVal rest k

/-- Dict membership `k in l`. -/
def Labels.containsKey (l : Labels) (k : String) : Bool :=
  match l with
  | [] => false
  | (k', _) :: rest => k' = k || Labels.containsKey rest k

/-- Dict store `l[k] = v` (after validation): overwrites in place when the
key exists, otherwise appends at the end, preserving insertion order. -/
def Labels.store (l : Labels) (k v : String) : Labels :=
  match l with
  | [] => [(k, v)]
  | (k', v') :: rest =>
      if k' = k then (k', v) :: rest else (k', v') :: Labels.store rest k v

/-- `Labels._check_label(name, value)`: raises `TypeError` when the name
is not a string, then when the value is not a string; on success the two
strings flow on to the store. -/
def Labels.check_label (name value : PyVal) : Except PyError (String × String) :=
  match name with
  | PyVal.str ks =>
      match value with
      | PyVal.str vs => Except.ok (ks, vs)
      | _ => Except.error (PyError.typeError "Label values must be strings")
  | _ => Except.error (PyError.typeError "Label names must be strings")

/-- `Labels._update_global_labels(key, value)`: appends the value under
the key in the class-level `global_labels` dict, creating a one-element
list when the key is new. -/
def Labels.update_global_labels (g : GlobalLabels) (k v : String) : GlobalLabels :=
  match g with
  | [] => [(k, [v])]
  | (k', vs) :: rest =>
      if k' = k then (k', vs ++ [v]) :: rest
      else (k', vs) :: Labels.update_global_labels rest k v

/-- Lookup in `global_labels`: the list of values recorded under a key
(empty when the key was never recorded). -/
def Labels.lookupGlobal (g : GlobalLabels) (k : String) : List String :=
  match g with
  | [] => []
  | (k', vs) :: rest => if k' = k then vs else Labels.lookupGlobal rest k

/-- `Labels.__setitem__(key, value)`: validates via `_check_label`, then
stores the pair and updates the class-level `global_labels`. -/
def Labels.setItem (l : Labels) (g : GlobalLabels) (key value : PyVal) :
    Except PyError (Labels × GlobalLabels) :=
  match Labels.check_label key value with
  | Except.error e => Except.error e
  | Except.ok (ks, vs) =>
      Except.ok (Labels.store l ks vs, Labels.update_global_labels g ks vs)

/-- `str(labels)`: comma-joined `key="value"` pairs in insertion order. -/
def Labels.render (l : Labels) : String :=
  String.intercalate "," (l.map fun p => p.1 ++ "=\"" ++ p.2 ++ "\"")

/-- Prometheus metric types (`MetricTypes` enum). -/
inductive MetricTypes where
  | COUNTER
  | GAUGE
  | UNTYPED
deriving DecidableEq

/-- The `.value` of each enum member. -/
def MetricTypes.value : MetricTypes → String
  | MetricTypes.COUNTER => "counter"
  | MetricTypes.GAUGE => "gauge"
  | MetricTypes.UNTYPED => "untyped"

/-- Modelled from the spec: `METRIC_NAME_REGEX` lives in `shared.py`,
which is not part of the sources at hand; the spec gives the pattern
`[a-zA-Z_][a-zA-Z0-9_]*` (one name-start character followed by
name characters), matched in full. -/
def isNameStart (c : Char) : Bool :=
  ('a' ≤ c && c ≤ 'z') || ('A' ≤ c && c ≤ 'Z') || c = '_'

/-- Modelled from the spec: a character allowed after the first one in a
metric or label name, per the pattern `[a-zA-Z0-9_]`. -/
def isNameChar (c : Char) : Bool :=
  isNameStart c || ('0' ≤ c && c ≤ '9')

/-- Modelled from the spec: `fullmatch(METRIC_NAME_REGEX, s)` for the
pattern `[a-zA-Z_][a-zA-Z0-9_]*`. -/
def metricNameMatch (s : String) : Bool :=
  match s.data with
  | [] => false
  | c :: cs => isNameStart c && cs.all isNameChar

/-- `value.replace(" ", "_")`: the pattern is a single character, so the
replacement is a character map. -/
def replaceSpaces (s : String) : String :=
  String.mk (s.data.map fun c => if c = ' ' then '_' else c)

/-- A Prometheus metric: name, type, optional help text, labels, numeric
value (modelled as `Int`; the source allows `int` and `float`). -/
structure Metric where
  name : String
  type : MetricTypes
  help : Option String
  labels : Labels
  value : Int
deriving DecidableEq

instance : Inhabited Metric :=
  ⟨{ name := "", type := MetricTypes.UNTYPED, help := none, labels := [], value := 0 }⟩

/-- The `name` branch of `Metric.__setattr__`: raises `AttributeError`
when a name is already set, otherwise replaces spaces with underscores and
raises `ValueError` unless the result matches `METRIC_NAME_REGEX` in
full. -/
def Metric.nameSetattr (current : Option String) (value : String) : Except PyError String :=
  match current with
  | some _ => Except.error (PyError.attributeError "Cannot change metric name")
  | none =>
      let v := replaceSpaces value
      if metricNameMatch v then Except.ok v
      else Except.error (PyError.valueError ("Invalid metric name: " ++ v))

/-- `Metric.__init__`: sets the name through `__setattr__` (so the name is
validated), then type, help, a copy of the labels, and the value. -/
def Metric.init (name : String) (value : Int) (help : Option String) (labels : Labels)
    (mtype : MetricTypes) : Except PyError Metric :=
  (Metric.nameSetattr none name).map fun n =>
    { name := n, type := mtype, help := help, labels := labels, value := value }

/-- An assignment `m.name = value` on an already-constructed metric, again
through the `name` branch of `__setattr__`. -/
def Metric.trySetName (m : Metric) (value : String) : Except PyError Metric :=
  (Metric.nameSetattr (some m.name) value).map fun n => { m with name := n }

/-- `Metric.check_labels(label_filter)`: walks the filter pairs and
returns `False` as soon as a filter key is missing from the metric's
labels or is stored with a different value. -/
def Metric.check_labels (m : Metric) : List (String × String) → Bool
  | [] => true
  | (label, value) :: rest =>
      if Labels.containsKey m.labels label = false ∨ Labels.getVal m.labels label ≠ some value
      then false
      else Metric.check_labels m rest

/-- `str(metric)`: `# HELP` line when help is set (truthy), `# TYPE` line,
then the name, the brace-wrapped labels when nonempty, and the value. -/
def Metric.render (m : Metric) : String :=
  (match m.help with
   | some h => if h ≠ "" then "# HELP " ++ m.name ++ " " ++ h ++ "\n" else ""
   | none => "")
  ++ "# TYPE " ++ m.name ++ " " ++ MetricTypes.value m.type ++ "\n" ++ m.name
  ++ (if m.labels.isEmpty then "" else "\x7b" ++ Labels.render m.labels ++ "\x7d")
  ++ " " ++ toString m.value

/-- `Labels.filter_metrics(metrics, input_filter_dict)`: drops filter keys
not defined in this labels dict, returns the metrics unchanged when the
remaining filter is empty, and otherwise narrows the metric list once per
remaining pair, keeping the metrics whose labels store that value. -/
def Labels.filter_metrics (self : Labels) (metrics : List Metric)
    (input_filter_dict : List (String × String)) : List Metric :=
  let filter_dict := input_filter_dict.filter fun p => Labels.containsKey self p.1
  if filter_dict.isEmpty then metrics
  else
    filter_dict.foldl
      (fun ms p => ms.filter fun m => Labels.getVal m.labels p.1 == some p.2) metrics

/-- `Exporter.export(label_filter)` after the metric list is fetched:
concatenates `str(metric) + "\n"` for every metric whose labels pass
`check_labels` (the `value is not None` guard is always true here because
values are modelled as `Int`). -/
def Exporter.exportText (metrics : List Metric) (label_filter : List (String × String)) : String :=
  metrics.foldl
    (fun output m =>
      if Metric.check_labels m label_filter then output ++ Metric.render m ++ "\n" else output)
    ""

/-- The mutable attributes of a `CachedExporter` that `get_metrics`
reads and writes: `_cached_metrics` (absent before the first successful
refresh), `self.metrics`, `_cache_time` and `_cache_life`. -/
structure CacheState where
  cached : Option (List Metric)
  metrics : List Metric
  cache_time : Int
  cache_life : Int
deriving DecidableEq

/-- `CachedExporter.get_metrics`: refreshes from the wrapped exporter when
there is no cached snapshot yet or the cache age (`now - cache_time`)
reached `cache_life`, keeping the prior snapshot when the refresh returns
no metrics; otherwise serves the cached snapshot. `provider` is the value
`super().get_metrics(...)` returns on this call (that call also assigns
`self.metrics`), `now` the value of `time()`, and the returned `Bool`
records whether the wrapped exporter was invoked. -/
def CachedExporter.get_metrics (s : CacheState) (provider : List Metric) (now : Int) :
    List Metric × CacheState × Bool :=
  if s.cached = none ∨ s.cache_life ≤ now - s.cache_time then
    let s0 : CacheState := { s with metrics := provider }
    if provider ≠ [] then
      let s1 : CacheState := { s0 with cached := some provider, cache_time := now }
      (s1.metrics, s1, true)
    else
      match s.cached with
      | some c =>
          let s1 : CacheState := { s0 with metrics := c }
          (s1.metrics, s1, true)
      | none => (s0.metrics, s0, true)
  else
    match s.cached with
    | some c =>
        let s1 : CacheState := { s with metrics := c }
        (s1.metrics, s1, false)
    | none => ([], s, false)

/-- `Exporter.export` on a cached exporter: `get_metrics` chooses or
refreshes the snapshot, then the export loop renders the metrics that
pass the label filter. Returns the text, the state after the call, and
whether the wrapped exporter was invoked. -/
def CachedExporter.export_call (s : CacheState) (provider : List Metric) (now : Int)
    (label_filter : List (String × String)) : String × CacheState × Bool :=
  let r := CachedExporter.get_metrics s provider now
  (Exporter.exportText r.1 label_filter, r.2.1, r.2.2)

/-- A reference to a `Metric` object: Python lists hold references, and
`list.copy()` copies the list but not the objects. -/
abbrev MRef := Nat

/-- The set of live `Metric` objects, addressed by reference. -/
abbrev MetricHeap := List Metric

/-- Dereference a metric object. -/
def MetricHeap.readM (h : MetricHeap) (r : MRef) : Metric :=
  h.getD r default

/-- Mutate the metric object behind a reference in place (for example
`metric.value = v` or `metric.labels = l` done by a caller). -/
def MetricHeap.writeM (h : MetricHeap) (r : MRef) (m : Metric) : MetricHeap :=
  h.set r m

/-- `CacheState` at the level of object references: `_cached_metrics` and
`self.metrics` are lists of references into the heap. -/
structure RefCacheState where
  cached : Option (List MRef)
  metrics : List MRef
  cache_time : Int
  cache_life : Int
deriving DecidableEq

/-- `CachedExporter.get_metrics` with object identity made explicit: the
lists hold references, and the final `self.metrics.copy()` copies the
list, not the `Metric` objects, so the returned list holds the same
references the cache holds. -/
def CachedExporter.get_metricsRef (s : RefCacheState) (provider : List MRef) (now : Int) :
    List MRef × RefCacheState × Bool :=
  if s.cached = none ∨ s.cache_life ≤ now - s.cache_time then
    let s0 : RefCacheState := { s with metrics := provider }
    if provider ≠ [] then
      let s1 : RefCacheState := { s0 with cached := some provider, cache_time := now }
      (s1.metrics, s1, true)
    else
      match s.cached with
      | some c =>
          let s1 : RefCacheState := { s0 with metrics := c }
          (s1.metrics, s1, true)
      | none => (s0.metrics, s0, true)
  else
    match s.cached with
    | some c =>
        let s1 : RefCacheState := { s with metrics := c }
        (s1.metrics, s1, false)
    | none => ([], s, false)

/-- Export over the reference-level state: dereference `self.metrics` in
the heap and render through the export loop. -/
def CachedExporter.exportRef (h : MetricHeap) (s : RefCacheState) (provider : List MRef)
    (now : Int) (label_filter : List (String × String)) : String × RefCacheState × Bool :=
  let r := CachedExporter.get_metricsRef s provider now
  (Exporter.exportText (r.1.map (MetricHeap.readM h)) label_filter, r.2.1, r.2.2)

/-- The `is_positive_number` decorator applied to a setter: `TypeError`
for a non-numeric value, `ValueError` for a negative one, and only then
the wrapped setter runs. -/
def is_positive_number_check (v : PyVal) : Except PyError Int :=
  match v with
  | PyVal.int n =>
      if n < 0 then Except.error (PyError.valueError "cache_life must be a positive number")
      else Except.ok n
  | _ => Except.error (PyError.typeError "cache_life must be an integer or float")

/-- The `cache_life` setter: the `is_positive_number` checks run first,
and only on success is `_cache_life` assigned. -/
def CachedExporter.setCacheLife (s : CacheState) (v : PyVal) : Except PyError CacheState :=
  (is_positive_number_check v).map fun n => { s with cache_life := n }

/-- The state observable after an assignment attempt `self.cache_life = v`:
a raised exception propagates to the caller and the object keeps its
previous attributes. -/
def CachedExporter.setCacheLifeAttempt (s : CacheState) (v : PyVal) :
    CacheState × Option PyError :=
  match CachedExporter.setCacheLife s v with
  | Except.ok s' => (s', none)
  | Except.error e => (s, some e)

theorem Labels.containsKey_eq_isSome (l : Labels) (k : String) :
    Labels.containsKey l k = (Labels.getVal l k).isSome := by
  induction l with
  | nil => rfl
  | cons p rest ih =>
      obtain ⟨k', v⟩ := p
      by_cases h : k' = k <;> simp [Labels.containsKey, Labels.getVal, h, ih]

/-- C1 (counterexample): on a metric with no labels and the predicate
`{"a": "1"}`, `check_labels` returns `false`, while the claim (absent
predicate keys are ignored, so the match vacuously holds) says `true`. -/
theorem C1_counterexample :
    ¬ (Metric.check_labels
          { name := "test", type := MetricTypes.UNTYPED, help := none, labels := [], value := 0 }
          [("a", "1")] = true ↔
        ∀ p ∈ [(("a" : String), ("1" : String))],
          Labels.containsKey
              (Metric.labels
                { name := "test", type := MetricTypes.UNTYPED, help := none, labels := [],
                  value := 0 }) p.1 = true →
            Labels.getVal
                (Metric.labels
                  { name := "test", type := MetricTypes.UNTYPED, help := none, labels := [],
                    value := 0 }) p.1 = some p.2) := by
  decide

/-- C1 (amended): `Metric.check_labels` returns `true` iff every
predicate key is present among the metric's labels and stored with the
predicate's value; a predicate key absent from the metric's labels makes
the match fail. -/
theorem C1_check_labels_requires_every_key (m : Metric) (fil : List (String × String)) :
    Metric.check_labels m fil = true ↔
      ∀ p ∈ fil, Labels.getVal m.labels p.1 = some p.2 := by
  induction fil with
  | nil => simp [Metric.check_labels]
  | cons p rest ih =>
      obtain ⟨label, value⟩ := p
      rw [Metric.check_labels]
      by_cases h : Labels.getVal m.labels label = some value
      · rw [if_neg, ih]
        · constructor
          · intro hall q hq
            rcases List.mem_cons.mp hq with hq | hq
            · rw [hq]; exact h
            · exact hall q hq
          · intro hall q hq
            exact hall q (List.mem_cons_of_mem _ hq)
        · rw [not_or]
          constructor
          · rw [Labels.containsKey_eq_isSome, h]
            simp
          · simpa using h
      · rw [if_pos (Or.inr h)]
        exact iff_of_false (by simp)
          fun hall => h (hall (label, value) (List.mem_cons_self _ _))

/-- C1 (witness for the amended theorem): on a metric carrying
`a="1"`, the predicate `{"a": "1"}` matches, and the characterization
instantiates to that concrete match. -/
theorem C1_check_labels_requires_every_key_witness :
    Metric.check_labels
        { name := "test", type := MetricTypes.UNTYPED, help := none, labels := [("a", "1")],
          value := 0 } [("a", "1")] = true ↔
      ∀ p ∈ [(("a" : String), ("1" : String))],
        Labels.getVal [("a", "1")] p.1 = some p.2 :=
  C1_check_labels_requires_every_key
    { name := "test", type := MetricTypes.UNTYPED, help := none, labels := [("a", "1")],
      value := 0 } [("a", "1")]

/-- C2 (code evaluated at the failing inputs): `Labels.__setitem__`
accepts the key `"1a"` (which fails the name pattern) and the empty value
`""`, storing both pairs and recording them in `global_labels`, instead of
raising the validation error the claim (and `tests/test_labels.py`)
require. -/
theorem C2_invalid_inputs_accepted :
    Labels.setItem [] [] (PyVal.str "1a") (PyVal.str "a")
        = Except.ok ([("1a", "a")], [("1a", ["a"])]) ∧
      Labels.setItem [] [] (PyVal.str "a") (PyVal.str "")
        = Except.ok ([("a", "")], [("a", [""])]) ∧
      Labels.check_label (PyVal.int 1) (PyVal.str "a")
        = Except.error (PyError.typeError "Label names must be strings") := by
  exact ⟨rfl, rfl, rfl⟩

/-- C7: constructing `Metric("test", help="H")` with the default value,
type and labels and serializing it yields exactly
`"# HELP test H\n# TYPE test untyped\ntest 0"`. -/
theorem C7_default_metric_serialization :
    (Metric.init "test" 0 (some "H") [] MetricTypes.UNTYPED).map Metric.render
      = Except.ok "# HELP test H\n# TYPE test untyped\ntest 0" := by
  rfl

/-- C8: metric name discipline. Construction stores the input with spaces
replaced by underscores when the replaced string matches the name pattern,
fails with `ValueError` when it does not, and any later assignment to
`name` fails with `AttributeError` (so the name never changes after
construction). -/
theorem C8_name_discipline (raw newName : String) (v : Int) (hlp : Option String)
    (l : Labels) (t : MetricTypes) (m : Metric) :
    Metric.init raw v hlp l t =
        (if metricNameMatch (replaceSpaces raw) then
          Except.ok { name := replaceSpaces raw, type := t, help := hlp, labels := l, value := v }
        else Except.error (PyError.valueError ("Invalid metric name: " ++ replaceSpaces raw))) ∧
      Metric.trySetName m newName
        = Except.error (PyError.attributeError "Cannot change metric name") := by
  constructor
  · rw [Metric.init, Metric.nameSetattr]
    by_cases hm : metricNameMatch (replaceSpaces raw) <;> simp [hm, Except.map]
  · rfl

theorem Labels.lookupGlobal_update_self (g : GlobalLabels) (k v : String) :
    Labels.lookupGlobal (Labels.update_global_labels g k v) k
      = Labels.lookupGlobal g k ++ [v] := by
  induction g with
  | nil => simp [Labels.update_global_labels, Labels.lookupGlobal]
  | cons p rest ih =>
      obtain ⟨k', vs⟩ := p
      by_cases h : k' = k <;>
        simp [Labels.update_global_labels, Labels.lookupGlobal, h, ih]

theorem Labels.lookupGlobal_update_other (g : GlobalLabels) (k v k' : String) (h : k' ≠ k) :
    Labels.lookupGlobal (Labels.update_global_labels g k v) k'
      = Labels.lookupGlobal g k' := by
  induction g with
  | nil => simp [Labels.update_global_labels, Labels.lookupGlobal, Ne.symm h]
  | cons p rest ih =>
      obtain ⟨k'', vs⟩ := p
      by_cases h2 : k'' = k
      · subst h2
        simp [Labels.update_global_labels, Labels.lookupGlobal, Ne.symm h]
      · simp [Labels.update_global_labels, Labels.lookupGlobal, h2, ih]

/-- C10: a successful `labels[k] = v` appends `v` to the class-level
registry `Labels.global_labels[k]` (making it the last recorded value) and
leaves every other key's recorded list untouched, so the registry only
grows. -/
theorem C10_global_labels_append (l : Labels) (g : GlobalLabels) (key value : PyVal)
    (l' : Labels) (g' : GlobalLabels) (ks vs k' : String)
    (hkey : key = PyVal.str ks) (hvalue : value = PyVal.str vs)
    (hok : Labels.setItem l g key value = Except.ok (l', g')) (hk' : k' ≠ ks) :
    Labels.lookupGlobal g' ks = Labels.lookupGlobal g ks ++ [vs] ∧
      (Labels.lookupGlobal g' ks).getLast? = some vs ∧
      Labels.lookupGlobal g' k' = Labels.lookupGlobal g k' := by
  subst hkey hvalue
  rw [Labels.setItem, Labels.check_label] at hok
  have hg : g' = Labels.update_global_labels g ks vs := by
    cases hok
    rfl
  subst hg
  refine ⟨Labels.lookupGlobal_update_self g ks vs, ?_,
    Labels.lookupGlobal_update_other g ks vs k' hk'⟩
  rw [Labels.lookupGlobal_update_self]
  simp [List.getLast?_append]

/-- C10 (witness): setting `"a" = "x"` on empty labels with an empty
registry records `["x"]` under `"a"`, with `"x"` last, and leaves the key
`"b"` unrecorded. -/
theorem C10_global_labels_append_witness :
    Labels.lookupGlobal [("a", ["x"])] "a" = Labels.lookupGlobal ([] : GlobalLabels) "a" ++ ["x"] ∧
      (Labels.lookupGlobal [("a", ["x"])] "a").getLast? = some "x" ∧
      Labels.lookupGlobal [("a", ["x"])] "b" = Labels.lookupGlobal ([] : GlobalLabels) "b" :=
  C10_global_labels_append [] [] (PyVal.str "a") (PyVal.str "x") [("a", "x")] [("a", ["x"])]
    "a" "x" "b" rfl rfl rfl (by decide)

theorem foldl_filter_eq_filter_all {α β : Type} (g : α → β → Bool) (l : List α) (ms : List β) :
    l.foldl (fun acc a => acc.filter (g a)) ms = ms.filter fun b => l.all fun a => g a b := by
  induction l generalizing ms with
  | nil => simp
  | cons a rest ih =>
      rw [List.foldl_cons, ih, List.filter_filter]
      apply List.filter_congr
      intro b _
      rw [List.all_cons, Bool.and_comm]

/-- C6: `Labels.filter_metrics` first drops every predicate key not
defined in the filtering label set; when the predicate is or becomes
empty it returns the metric list unchanged, and otherwise it retains
exactly the metrics whose labels store every remaining predicate pair
(iterative narrowing equals one conjunctive pass); the result is always a
sublist of the input, which is itself left intact. -/
theorem C6_filter_metrics_characterization (self : Labels) (metrics : List Metric)
    (f : List (String × String)) :
    Labels.filter_metrics self metrics f =
        (if (f.filter fun p => Labels.containsKey self p.1).isEmpty then metrics
        else metrics.filter fun m =>
          (f.filter fun p => Labels.containsKey self p.1).all fun p =>
            Labels.getVal m.labels p.1 == some p.2) ∧
      List.Sublist (Labels.filter_metrics self metrics f) metrics := by
  have key : Labels.filter_metrics self metrics f =
      (if (f.filter fun p => Labels.containsKey self p.1).isEmpty then metrics
      else metrics.filter fun m =>
        (f.filter fun p => Labels.containsKey self p.1).all fun p =>
          Labels.getVal m.labels p.1 == some p.2) := by
    rw [Labels.filter_metrics]
    by_cases hemp : (f.filter fun p => Labels.containsKey self p.1).isEmpty
    · rw [if_pos hemp, if_pos hemp]
    · rw [if_neg hemp, if_neg hemp, foldl_filter_eq_filter_all]
  refine ⟨key, ?_⟩
  rw [key]
  by_cases hemp : (f.filter fun p => Labels.containsKey self p.1).isEmpty
  · rw [if_pos hemp]
  · rw [if_neg hemp]
    exact List.filter_sublist _

/-- `isinstance(value, int) or isinstance(value, float)`, the numeric
check of the `is_positive_number` decorator. -/
def PyVal.isNumeric : PyVal → Bool
  | PyVal.int _ => true
  | PyVal.str _ => false

/-- C9: assigning a non-numeric or negative value to `cache_life` raises
`TypeError` respectively `ValueError` inside the `is_positive_number`
decorator, before the setter body runs: the state afterwards keeps the
previous `cache_life` and the previous cached snapshot. -/
theorem C9_cache_life_rejects_bad_values (s : CacheState) (v : PyVal)
    (hbad : v.isNumeric = false ∨ ∃ n : Int, v = PyVal.int n ∧ n < 0) :
    ((CachedExporter.setCacheLifeAttempt s v).2
          = some (PyError.typeError "cache_life must be an integer or float") ∨
        (CachedExporter.setCacheLifeAttempt s v).2
          = some (PyError.valueError "cache_life must be a positive number")) ∧
      (CachedExporter.setCacheLifeAttempt s v).1 = s := by
  cases v with
  | str t =>
      refine ⟨Or.inl ?_, ?_⟩ <;> rfl
  | int n =>
      rcases hbad with hbad | ⟨n2, hn2, hneg⟩
      · exact absurd hbad (by simp [PyVal.isNumeric])
      · have hn : n < 0 := by
          injection hn2 with h2
          rw [h2]
          exact hneg
        constructor
        · right
          rw [CachedExporter.setCacheLifeAttempt, CachedExporter.setCacheLife,
            is_positive_number_check]
          rw [if_pos hn]
          rfl
        · rw [CachedExporter.setCacheLifeAttempt, CachedExporter.setCacheLife,
            is_positive_number_check]
          rw [if_pos hn]
          rfl

/-- C9 (witness): assigning `-5` to `cache_life` on a concrete state
raises and leaves the state as it was. -/
theorem C9_cache_life_rejects_bad_values_witness :
    ((CachedExporter.setCacheLifeAttempt
            { cached := some [], metrics := [], cache_time := 0, cache_life := 60 }
            (PyVal.int (-5))).2
          = some (PyError.typeError "cache_life must be an integer or float") ∨
        (CachedExporter.setCacheLifeAttempt
            { cached := some [], metrics := [], cache_time := 0, cache_life := 60 }
            (PyVal.int (-5))).2
          = some (PyError.valueError "cache_life must be a positive number")) ∧
      (CachedExporter.setCacheLifeAttempt
          { cached := some [], metrics := [], cache_time := 0, cache_life := 60 }
          (PyVal.int (-5))).1
        = { cached := some [], metrics := [], cache_time := 0, cache_life := 60 } :=
  C9_cache_life_rejects_bad_values
    { cached := some [], metrics := [], cache_time := 0, cache_life := 60 }
    (PyVal.int (-5)) (Or.inr ⟨-5, rfl, by decide⟩)

theorem CachedExporter.get_metrics_fresh (s : CacheState) (c p : List Metric) (now : Int)
    (hc : s.cached = some c) (hfresh : now - s.cache_time < s.cache_life) :
    CachedExporter.get_metrics s p now = (c, { s with metrics := c }, false) := by
  have hcond : ¬ (s.cached = none ∨ s.cache_life ≤ now - s.cache_time) := by
    rw [not_or, hc]
    exact ⟨by simp, not_le.mpr hfresh⟩
  rw [CachedExporter.get_metrics, if_neg hcond, hc]

theorem CachedExporter.get_metrics_stale_empty (s : CacheState) (c : List Metric) (now : Int)
    (hc : s.cached = some c) (hstale : s.cache_life ≤ now - s.cache_time) :
    CachedExporter.get_metrics s [] now = (c, { s with metrics := c }, true) := by
  rw [CachedExporter.get_metrics, if_pos (Or.inr hstale)]
  rw [if_neg (by simp), hc]

/-- C3: with a cached snapshot that stays fresh across both calls, two
consecutive export calls with the same label filter produce the same text
and the second call does not invoke the wrapped exporter. -/
theorem C3_fresh_cache_idempotent_export (s : CacheState) (c p1 p2 : List Metric)
    (now1 now2 : Int) (fil : List (String × String))
    (hc : s.cached = some c)
    (h1 : now1 - s.cache_time < s.cache_life)
    (h2 : now2 - s.cache_time < s.cache_life) :
    (CachedExporter.export_call (CachedExporter.export_call s p1 now1 fil).2.1 p2 now2 fil).1
        = (CachedExporter.export_call s p1 now1 fil).1 ∧
      (CachedExporter.export_call (CachedExporter.export_call s p1 now1 fil).2.1 p2 now2 fil).2.2
        = false := by
  have e1 := CachedExporter.get_metrics_fresh s c p1 now1 hc h1
  have e2 := CachedExporter.get_metrics_fresh { s with metrics := c } c p2 now2 hc h2
  simp only [CachedExporter.export_call, e1, e2]
  exact ⟨trivial, trivial⟩

/-- C3 (witness): a concrete fresh state served twice within the TTL. -/
theorem C3_fresh_cache_idempotent_export_witness :
    (CachedExporter.export_call
          (CachedExporter.export_call
              { cached :=
                  some [{ name := "t", type := MetricTypes.UNTYPED, help := none, labels := [],
                          value := 1 }],
                metrics := [], cache_time := 0, cache_life := 60 }
              [] 10 []).2.1
          [] 20 []).1
        = (CachedExporter.export_call
            { cached :=
                some [{ name := "t", type := MetricTypes.UNTYPED, help := none, labels := [],
                        value := 1 }],
              metrics := [], cache_time := 0, cache_life := 60 }
            [] 10 []).1 ∧
      (CachedExporter.export_call
          (CachedExporter.export_call
              { cached :=
                  some [{ name := "t", type := MetricTypes.UNTYPED, help := none, labels := [],
                          value := 1 }],
                metrics := [], cache_time := 0, cache_life := 60 }
              [] 10 []).2.1
          [] 20 []).2.2
        = false :=
  C3_fresh_cache_idempotent_export
    { cached :=
        some [{ name := "t", type := MetricTypes.UNTYPED, help := none, labels := [], value := 1 }],
      metrics := [], cache_time := 0, cache_life := 60 }
    [{ name := "t", type := MetricTypes.UNTYPED, help := none, labels := [], value := 1 }]
    [] [] 10 20 [] rfl (by decide) (by decide)

/-- C4: with a prior non-empty snapshot, a refresh attempt that yields an
empty provider result keeps the snapshot and its timestamp and produces
the same export text as the export before the attempt. -/
theorem C4_empty_refresh_keeps_snapshot (s : CacheState) (c p0 : List Metric)
    (now0 now1 : Int) (fil : List (String × String))
    (hc : s.cached = some c) (hne : c ≠ [])
    (hfresh : now0 - s.cache_time < s.cache_life)
    (hstale : s.cache_life ≤ now1 - s.cache_time) :
    (CachedExporter.export_call (CachedExporter.export_call s p0 now0 fil).2.1 [] now1 fil).1
        = (CachedExporter.export_call s p0 now0 fil).1 ∧
      (CachedExporter.export_call (CachedExporter.export_call s p0 now0 fil).2.1 [] now1 fil).2.1.cached
        = some c ∧
      (CachedExporter.export_call (CachedExporter.export_call s p0 now0 fil).2.1 [] now1 fil).2.1.cache_time
        = s.cache_time := by
  have e1 := CachedExporter.get_metrics_fresh s c p0 now0 hc hfresh
  have e2 := CachedExporter.get_metrics_stale_empty { s with metrics := c } c now1 hc hstale
  simp only [CachedExporter.export_call, e1, e2]
  exact ⟨trivial, hc, trivial⟩

/-- C4 (witness): a concrete stale refresh returning nothing serves the
prior snapshot with an unchanged timestamp and identical text. -/
theorem C4_empty_refresh_keeps_snapshot_witness :
    (CachedExporter.export_call
          (CachedExporter.export_call
              { cached :=
                  some [{ name := "t", type := MetricTypes.UNTYPED, help := none, labels := [],
                          value := 1 }],
                metrics := [], cache_time := 0, cache_life := 60 }
              [] 10 []).2.1
          [] 100 []).1
        = (CachedExporter.export_call
            { cached :=
                some [{ name := "t", type := MetricTypes.UNTYPED, help := none, labels := [],
                        value := 1 }],
              metrics := [], cache_time := 0, cache_life := 60 }
            [] 10 []).1 ∧
      (CachedExporter.export_call
          (CachedExporter.export_call
              { cached :=
                  some [{ name := "t", type := MetricTypes.UNTYPED, help := none, labels := [],
                          value := 1 }],
                metrics := [], cache_time := 0, cache_life := 60 }
              [] 10 []).2.1
          [] 100 []).2.1.cached
        = some [{ name := "t", type := MetricTypes.UNTYPED, help := none, labels := [],
                  value := 1 }] ∧
      (CachedExporter.export_call
          (CachedExporter.export_call
              { cached :=
                  some [{ name := "t", type := MetricTypes.UNTYPED, help := none, labels := [],
                          value := 1 }],
                metrics := [], cache_time := 0, cache_life := 60 }
              [] 10 []).2.1
          [] 100 []).2.1.cache_time
        = (0 : Int) :=
  C4_empty_refresh_keeps_snapshot
    { cached :=
        some [{ name := "t", type := MetricTypes.UNTYPED, help := none, labels := [], value := 1 }],
      metrics := [], cache_time := 0, cache_life := 60 }
    [{ name := "t", type := MetricTypes.UNTYPED, help := none, labels := [], value := 1 }]
    [] 10 100 [] rfl (by decide) (by decide) (by decide)

theorem CachedExporter.get_metricsRef_returns_cache_list (s : RefCacheState) (p : List MRef)
    (now : Int) :
    (CachedExporter.get_metricsRef s p now).1
      = (CachedExporter.get_metricsRef s p now).2.1.metrics := by
  unfold CachedExporter.get_metricsRef
  split
  · split
    · rfl
    · split
      · rfl
      · rfl
  · rename_i hcond
    split
    · rfl
    · rename_i hc2
      exact absurd (Or.inl hc2) hcond

theorem MetricHeap.readM_writeM_ne (h : MetricHeap) (r x : MRef) (m' : Metric) (hx : x ≠ r) :
    MetricHeap.readM (MetricHeap.writeM h r m') x = MetricHeap.readM h x := by
  rw [MetricHeap.readM, MetricHeap.readM, MetricHeap.writeM,
    List.getD_eq_getElem?_getD, List.getD_eq_getElem?_getD,
    List.getElem?_set_ne (Ne.symm hx)]

/-- C5 (counterexample): `get_metrics` returns `self.metrics.copy()`, a
shallow copy: mutating the `Metric` object referenced from the head of
the returned sequence (setting its value to 99) changes the output of the
next export, so a caller can mutate the cached snapshot through the
returned value. -/
theorem C5_counterexample :
    (CachedExporter.exportRef
          (MetricHeap.writeM
            [{ name := "test", type := MetricTypes.UNTYPED, help := none, labels := [],
               value := 0 }]
            ((CachedExporter.get_metricsRef
                { cached := some [0], metrics := [0], cache_time := 0, cache_life := 60 }
                [] 10).1.headD 0)
            { name := "test", type := MetricTypes.UNTYPED, help := none, labels := [],
              value := 99 })
          (CachedExporter.get_metricsRef
              { cached := some [0], metrics := [0], cache_time := 0, cache_life := 60 }
              [] 10).2.1
          [] 20 []).1
      ≠ (CachedExporter.exportRef
            [{ name := "test", type := MetricTypes.UNTYPED, help := none, labels := [],
               value := 0 }]
            (CachedExporter.get_metricsRef
                { cached := some [0], metrics := [0], cache_time := 0, cache_life := 60 }
                [] 10).2.1
            [] 20 []).1 := by
  decide

/-- C5 (amended): the returned value is a copy of the reference list
only. The list returned by `get_metrics` holds exactly the references the
cache keeps in `self.metrics` (the `Metric` objects are shared, which is
what the counterexample exploits), and mutating any metric object not
referenced from the returned list leaves the rendering of the cached
snapshot unchanged. -/
theorem C5_shallow_copy_returned_list (s : RefCacheState) (h : MetricHeap) (p : List MRef)
    (now : Int) (fil : List (String × String)) (r : MRef) (m' : Metric)
    (hout : r ∉ (CachedExporter.get_metricsRef s p now).1) :
    (CachedExporter.get_metricsRef s p now).1
        = (CachedExporter.get_metricsRef s p now).2.1.metrics ∧
      Exporter.exportText
          ((CachedExporter.get_metricsRef s p now).2.1.metrics.map
            (MetricHeap.readM (MetricHeap.writeM h r m'))) fil
        = Exporter.exportText
            ((CachedExporter.get_metricsRef s p now).2.1.metrics.map (MetricHeap.readM h))
            fil := by
  have hsame := CachedExporter.get_metricsRef_returns_cache_list s p now
  refine ⟨hsame, ?_⟩
  have hmap : (CachedExporter.get_metricsRef s p now).2.1.metrics.map
        (MetricHeap.readM (MetricHeap.writeM h r m'))
      = (CachedExporter.get_metricsRef s p now).2.1.metrics.map (MetricHeap.readM h) := by
    apply List.map_congr_left
    intro x hx
    refine MetricHeap.readM_writeM_ne h r x m' ?_
    intro e
    apply hout
    rw [hsame]
    exact e ▸ hx
  rw [hmap]

/-- C5 (witness for the amended theorem): on a concrete one-metric cache,
the returned list equals the cached reference list, and mutating the
unrelated reference 1 leaves the cached rendering unchanged. -/
theorem C5_shallow_copy_returned_list_witness :
    (CachedExporter.get_metricsRef
          { cached := some [0], metrics := [0], cache_time := 0, cache_life := 60 } [] 10).1
        = (CachedExporter.get_metricsRef
            { cached := some [0], metrics := [0], cache_time := 0, cache_life := 60 } [] 10).2.1.metrics ∧
      Exporter.exportText
          ((CachedExporter.get_metricsRef
              { cached := some [0], metrics := [0], cache_time := 0, cache_life := 60 }
              [] 10).2.1.metrics.map
            (MetricHeap.readM
              (MetricHeap.writeM
                [{ name := "test", type := MetricTypes.UNTYPED, help := none, labels := [],
                   value := 0 }]
                1
                { name := "test", type := MetricTypes.UNTYPED, help := none, labels := [],
                  value := 99 }))) []
        = Exporter.exportText
            ((CachedExporter.get_metricsRef
                { cached := some [0], metrics := [0], cache_time := 0, cache_life := 60 }
                [] 10).2.1.metrics.map
              (MetricHeap.readM
                [{ name := "test", type := MetricTypes.UNTYPED, help := none, labels := [],
                   value := 0 }])) [] :=
  C5_shallow_copy_returned_list
    { cached := some [0], metrics := [0], cache_time := 0, cache_life := 60 }
    [{ name := "test", type := MetricTypes.UNTYPED, help := none, labels := [], value := 0 }]
    [] 10 [] 1
    { name := "test", type := MetricTypes.UNTYPED, help := none, labels := [], value := 99 }
    (by decide)
